import Mathlib

/-!
Shallow embedding of the ADIS IMU driver core (`drivers/imu/adis.c`) of the
no-OS repository: paged register transport, bitfield codec, burst acquisition
protocol, diagnostics tracker and the clock/sync configuration validator.

C `uint32_t` arithmetic is modelled on `Nat` with explicit reduction
`% 2^32` where the C code can overflow, `uint16_t` with `% 2^16`, and
byte (`uint8_t`) buffers as `List Nat` whose elements are read `% 256`.
SPI transfers are external collaborators: each transfer's outcome (its return
code and received bytes) is an explicit parameter of the embedded function,
and the messages handed to the transport are returned as part of each
operation's result so that theorems can speak about what was put on the bus.
-/

namespace Adis

/-- Value of the C errno constant `EINVAL`; the driver returns `-EINVAL`. -/
def EINVAL : Int := 22

/-- Truncation to an unsigned 32-bit value, as C `uint32_t` arithmetic does. -/
def u32 (x : Nat) : Nat := x % 4294967296

/-- All-ones 32-bit word; C bitwise complement `~` on `uint32_t` is xor with this. -/
def UINT32_MAX : Nat := 4294967295

/-- ADIS_PAGE_SIZE constant (0x80): registers per page. -/
def ADIS_PAGE_SIZE : Nat := 128

/-- ADIS_REG_PAGE_ID constant: address of the page-select register. -/
def ADIS_REG_PAGE_ID : Nat := 0

/-- ADIS_WRITE_REG(reg) = NO_OS_BIT(7) | reg. -/
def ADIS_WRITE_REG (reg : Nat) : Nat := 128 ||| reg

/-- ADIS_READ_REG(reg) = reg & NO_OS_GENMASK(6,0). -/
def ADIS_READ_REG (reg : Nat) : Nat := reg &&& 127

/-- ADIS_CHECKSUM_SIZE constant (bytes). -/
def ADIS_CHECKSUM_SIZE : Nat := 2

/-- ADIS_READ_BURST_DATA_CMD_SIZE constant (bytes). -/
def ADIS_READ_BURST_DATA_CMD_SIZE : Nat := 2

/-- Modelled from the spec: the encoded value of the scaled-sync mode
(`ADIS_SYNC_SCALED`), the third entry of the sync-mode selection
(internal, external direct, external scaled, output) declared in the
missing `adis.h` header. -/
def ADIS_SYNC_SCALED : Nat := 2

/-- Access of a `uint8_t` array element: stored values are bytes, so reads
are reduced `% 256`; out-of-range indices default to 0. -/
def byteAt (l : List Nat) (i : Nat) : Nat := l.getD i 0 % 256

/-- Embedding of `no_os_get_unaligned_be16` over a byte buffer. -/
def be16At (l : List Nat) (i : Nat) : Nat := byteAt l i * 256 + byteAt l (i + 1)

/-- Embedding of `no_os_get_unaligned_be32` over a byte buffer. -/
def be32At (l : List Nat) (i : Nat) : Nat :=
  ((byteAt l i * 256 + byteAt l (i + 1)) * 256 + byteAt l (i + 2)) * 256 + byteAt l (i + 3)

/-- Modelled from the spec: `no_os_find_first_set_bit` of the repository's
util library (not under src/): the position of the lowest set bit of a
32-bit word, 32 when the word is zero. Used by the bitfield codec to
right-justify masked bits. -/
def no_os_find_first_set_bit (x : Nat) : Nat :=
  ((List.range 32).find? (fun i => x.testBit i)).getD 32

/-- Modelled from the spec: `no_os_find_last_set_bit` of the repository's
util library (not under src/): the position of the highest set bit of a
32-bit word, 32 when the word is zero. The signed codec sign-extends from
this position. -/
def no_os_find_last_set_bit (x : Nat) : Nat :=
  (List.range 32).foldl (fun acc i => if x.testBit i then i else acc) 32

/-- Modelled from the spec: `no_os_field_get(mask, word)` right-justifies
the masked bits of `word`. -/
def no_os_field_get (mask word : Nat) : Nat :=
  (word &&& mask) >>> no_os_find_first_set_bit mask

/-- Modelled from the spec: `no_os_field_prep(mask, val)` left-justifies
`val` into the mask's position. -/
def no_os_field_prep (mask val : Nat) : Nat :=
  (val <<< no_os_find_first_set_bit mask) &&& mask

/-- Modelled from the spec: `no_os_sign_extend32(value, index)` treats
`value` as a two's-complement number of width `index + 1` (sign bit at
position `index`) and returns the signed result. -/
def no_os_sign_extend32 (value : Nat) (index : Nat) : Int :=
  let low : Nat := value &&& (2 ^ (index + 1) - 1)
  if value.testBit index then (low : Int) - 2 ^ (index + 1) else (low : Int)

/-- C `uint16_t` subtraction with wraparound, used by the running checksum. -/
def usub16 (a b : Nat) : Nat := (a % 65536 + 65536 - b % 65536) % 65536

/-- The subtraction loop of `adis_validate_checksum`: subtract the first `k`
payload bytes of `buffer` from `c` in `uint16_t` arithmetic. -/
def checksum_fold (buffer : List Nat) (k : Nat) (c : Nat) : Nat :=
  (List.range k).foldl (fun acc i => usub16 acc (byteAt buffer i)) c

/-- Embedding of `adis_validate_checksum`: read the expected checksum from
the trailing two bytes (big-endian), subtract every preceding payload byte
in `uint16_t` arithmetic, and accept when the result is zero. -/
def adis_validate_checksum (buffer : List Nat) (size : Nat) : Bool :=
  decide (checksum_fold buffer (size - ADIS_CHECKSUM_SIZE)
    (be16At buffer (size - ADIS_CHECKSUM_SIZE)) = 0)

/-- Sum of the first `k` bytes of a buffer (specification-side quantity for
the checksum claim). -/
def sum_bytes (buffer : List Nat) (k : Nat) : Nat :=
  ((List.range k).map (byteAt buffer)).sum

/-- Embedding of `struct adis_field`: register address, register size in
bytes, and the bit mask within the register window. -/
structure adis_field where
  reg_addr : Nat
  reg_size : Nat
  field_mask : Nat

/-- Embedding of `struct adis_diag_flags`: the device-wide diagnostic
snapshot. -/
structure adis_diag_flags where
  data_path_overrun : Bool
  spi_comm_err : Bool
  diag_standby_mode : Bool
  clk_err : Bool
  fls_mem_update_failure : Bool
  mem_failure : Bool
  snsr_failure : Bool
  gyro1_failure : Bool
  gyro2_failure : Bool
  accl_failure : Bool
  checksum_err : Bool
  fls_mem_wr_cnt_exceed : Bool

/-- Embedding of the part of `struct adis_data_field_map_def` the claims
touch: the diagnostic flag masks and the field descriptors used by the
embedded operations. -/
structure adis_data_field_map_def where
  diag_stat : adis_field
  diag_data_path_overrun_mask : Nat
  diag_spi_comm_err_mask : Nat
  diag_standby_mode_mask : Nat
  diag_clk_err_mask : Nat
  diag_fls_mem_update_failure_mask : Nat
  diag_mem_failure_mask : Nat
  diag_snsr_failure_mask : Nat
  diag_gyro1_failure_mask : Nat
  diag_gyro2_failure_mask : Nat
  diag_accl_failure_mask : Nat
  sync_mode : adis_field
  up_scale : adis_field
  xg_bias : adis_field
  sens_bw : adis_field

/-- Embedding of the part of `struct adis_timeout` used here. -/
structure adis_timeout where
  sens_bw_update_ms : Nat

/-- Embedding of the part of `struct adis_chip_info` used here. -/
structure adis_chip_info where
  field_map : adis_data_field_map_def
  timeouts : adis_timeout

/-- Embedding of the mutable part of `struct adis_dev` the claims touch:
the cached current page (with `-1` as the "unknown" sentinel set by
`adis_init` for paged devices), the clock frequency and the diagnostic
snapshot. -/
structure adis_dev where
  current_page : Int
  clk_freq : Nat
  diag_flags : adis_diag_flags
  info : adis_chip_info

/-- Outcome of one call into the external SPI transport: the return code
(`0` on success, the C convention) and the bytes received into the rx
buffer. -/
structure spi_outcome where
  ret : Int
  rx : List Nat

/-- One `no_os_spi_msg` of a transaction, modelled by the bytes it clocks
out and whether a receive buffer is attached. -/
structure spi_msg where
  tx : List Nat
  hasRx : Bool

/-- A message is the page-select write iff its first tx byte is
`ADIS_WRITE_REG(ADIS_REG_PAGE_ID) = 0x80`. -/
def is_page_select (m : spi_msg) : Bool := decide (m.tx.head? = some 128)

/-- Result of `adis_read_reg`: the returned value or error, the device
state after the call, and the messages passed to `no_os_spi_transfer`
(empty when the call rejects before any transfer). -/
structure reg_read_out where
  res : Except Int Nat
  dev : adis_dev
  msgs : List spi_msg

/-- Embedding of `adis_read_reg`: an optional page-select write is
prepended when the cached page differs from `reg / ADIS_PAGE_SIZE`; a
4-byte read clocks the high sub-register address before the low one; the
page cache is updated only after a successful transfer. -/
def adis_read_reg (d : adis_dev) (reg : Nat) (size : Nat) (spi : spi_outcome) :
    reg_read_out :=
  let page := reg / ADIS_PAGE_SIZE
  let presel : List spi_msg :=
    if d.current_page ≠ (page : Int) then
      [⟨[ADIS_WRITE_REG ADIS_REG_PAGE_ID, page], false⟩]
    else []
  if size = 4 then
    let msgs := presel ++
      [⟨[ADIS_READ_REG (reg + 2), 0], false⟩, ⟨[ADIS_READ_REG reg, 0], true⟩, ⟨[], true⟩]
    if spi.ret ≠ 0 then ⟨Except.error spi.ret, d, msgs⟩
    else ⟨Except.ok (be32At spi.rx 0), { d with current_page := (page : Int) }, msgs⟩
  else if size = 2 then
    let msgs := presel ++ [⟨[ADIS_READ_REG reg, 0], true⟩, ⟨[], true⟩]
    if spi.ret ≠ 0 then ⟨Except.error spi.ret, d, msgs⟩
    else ⟨Except.ok (be16At spi.rx 2), { d with current_page := (page : Int) }, msgs⟩
  else ⟨Except.error (-EINVAL), d, []⟩

/-- Result of `adis_write_reg` and of the operations built on it. -/
structure reg_write_out where
  res : Except Int Unit
  dev : adis_dev
  msgs : List spi_msg

/-- Embedding of `adis_write_reg`: an optional page-select write, then one
2-byte write transfer per value byte, sent lowest address first; the page
cache is updated only after a successful transfer. -/
def adis_write_reg (d : adis_dev) (reg : Nat) (val : Nat) (size : Nat)
    (spi : spi_outcome) : reg_write_out :=
  let page := reg / ADIS_PAGE_SIZE
  let presel : List spi_msg :=
    if d.current_page ≠ (page : Int) then
      [⟨[ADIS_WRITE_REG ADIS_REG_PAGE_ID, page], false⟩]
    else []
  if size = 4 ∨ size = 2 ∨ size = 1 then
    let msgs := presel ++ (List.range size).map
      (fun k => ⟨[ADIS_WRITE_REG (reg + k), (val >>> (8 * k)) &&& 255], false⟩)
    if spi.ret ≠ 0 then ⟨Except.error spi.ret, d, msgs⟩
    else ⟨Except.ok (), { d with current_page := (page : Int) }, msgs⟩
  else ⟨Except.error (-EINVAL), d, []⟩

/-- Embedding of `adis_update_bits_base`: read the register, replace the
masked bits with the packed value, write the result back. The second and
third SPI outcomes feed the embedded read and write transfers. -/
def adis_update_bits_base (d : adis_dev) (reg mask val : Nat) (size : Nat)
    (spiR spiW : spi_outcome) : reg_write_out :=
  let r := adis_read_reg d reg size spiR
  match r.res with
  | Except.error e => ⟨Except.error e, r.dev, r.msgs⟩
  | Except.ok old =>
      let v := (old &&& (UINT32_MAX ^^^ mask)) ||| no_os_field_prep mask val
      let w := adis_write_reg r.dev reg v size spiW
      ⟨w.res, w.dev, r.msgs ++ w.msgs⟩

/-- Embedding of `adis_write_field_u32`: reject a value that exceeds the
right-justified mask before any transfer, otherwise perform the
read-modify-write. -/
def adis_write_field_u32 (d : adis_dev) (field : adis_field) (field_val : Nat)
    (spiR spiW : spi_outcome) : reg_write_out :=
  if field_val > no_os_field_get field.field_mask field.field_mask then
    ⟨Except.error (-EINVAL), d, []⟩
  else
    adis_update_bits_base d field.reg_addr field.field_mask field_val
      field.reg_size spiR spiW

/-- Result of `adis_read_field_u32`. -/
structure field_read_u32_out where
  res : Except Int Nat
  dev : adis_dev
  msgs : List spi_msg

/-- Embedding of `adis_read_field_u32`. -/
def adis_read_field_u32 (d : adis_dev) (field : adis_field)
    (spi : spi_outcome) : field_read_u32_out :=
  let r := adis_read_reg d field.reg_addr field.reg_size spi
  match r.res with
  | Except.error e => ⟨Except.error e, r.dev, r.msgs⟩
  | Except.ok reg_val =>
      ⟨Except.ok (no_os_field_get field.field_mask reg_val), r.dev, r.msgs⟩

/-- Result of `adis_read_field_s32`. -/
structure field_read_s32_out where
  res : Except Int Int
  dev : adis_dev
  msgs : List spi_msg

/-- Embedding of `adis_read_field_s32`: right-justify the masked bits, then
sign-extend from the highest set bit position of the mask. -/
def adis_read_field_s32 (d : adis_dev) (field : adis_field)
    (spi : spi_outcome) : field_read_s32_out :=
  let r := adis_read_reg d field.reg_addr field.reg_size spi
  match r.res with
  | Except.error e => ⟨Except.error e, r.dev, r.msgs⟩
  | Except.ok reg_val =>
      let fv := no_os_field_get field.field_mask reg_val
      ⟨Except.ok (no_os_sign_extend32 fv (no_os_find_last_set_bit field.field_mask)),
        r.dev, r.msgs⟩

/-- Embedding of `adis_update_diag_flags`: decode a status word into the
ten register-derived diagnostic flags using the chip's flag-position map;
`checksum_err` and `fls_mem_wr_cnt_exceed` are not touched. The C
parameter is `uint16_t`; callers perform the truncation at the call site. -/
def adis_update_diag_flags (d : adis_dev) (diag_stat : Nat) : adis_dev :=
  let fm := d.info.field_map
  { d with diag_flags :=
    { d.diag_flags with
      data_path_overrun := decide (diag_stat &&& fm.diag_data_path_overrun_mask ≠ 0)
      spi_comm_err := decide (diag_stat &&& fm.diag_spi_comm_err_mask ≠ 0)
      diag_standby_mode := decide (diag_stat &&& fm.diag_standby_mode_mask ≠ 0)
      clk_err := decide (diag_stat &&& fm.diag_clk_err_mask ≠ 0)
      fls_mem_update_failure := decide (diag_stat &&& fm.diag_fls_mem_update_failure_mask ≠ 0)
      mem_failure := decide (diag_stat &&& fm.diag_mem_failure_mask ≠ 0)
      snsr_failure := decide (diag_stat &&& fm.diag_snsr_failure_mask ≠ 0)
      gyro1_failure := decide (diag_stat &&& fm.diag_gyro1_failure_mask ≠ 0)
      gyro2_failure := decide (diag_stat &&& fm.diag_gyro2_failure_mask ≠ 0)
      accl_failure := decide (diag_stat &&& fm.diag_accl_failure_mask ≠ 0) } }

/-- Result of `adis_read_diag_stat`. -/
structure diag_read_out where
  res : Except Int adis_diag_flags
  dev : adis_dev
  msgs : List spi_msg

/-- Embedding of `adis_read_diag_stat`: read the raw status register,
decode it into the snapshot (the `uint32_t` value is truncated to the
`uint16_t` parameter of the decoder) and return a copy of the flags. -/
def adis_read_diag_stat (d : adis_dev) (spi : spi_outcome) : diag_read_out :=
  let field := d.info.field_map.diag_stat
  let r := adis_read_reg d field.reg_addr field.reg_size spi
  match r.res with
  | Except.error e => ⟨Except.error e, r.dev, r.msgs⟩
  | Except.ok field_val =>
      let d2 := adis_update_diag_flags r.dev (field_val % 65536)
      ⟨Except.ok d2.diag_flags, d2, r.msgs⟩

/-- Embedding of the `burst_size_bytes` table: 20 bytes for the 16-bit
burst, 32 bytes for the 32-bit burst. -/
def burst_size_bytes (sel : Nat) : Nat := [20, 32].getD sel 0

/-- Result of `adis_read_burst_data`: the return value, the device state,
and the bytes copied into the caller's `burst_data` buffer (empty when
nothing is copied). -/
structure burst_out where
  res : Except Int Unit
  dev : adis_dev
  data : List Nat

/-- Embedding of `adis_read_burst_data`. The SPI outcome's `rx` is the
content of the stack buffer after `no_os_spi_write_and_read`
(`msg_size + 2` bytes, the first two exchanged during the burst command).
On checksum failure only the checksum-error flag is set and no data is
copied; on success the checksum-error flag is cleared, the requested
data is copied, and the diagnostic flags are updated from `buffer[2]`
(a single byte, as the C code does). -/
def adis_read_burst_data (d : adis_dev) (burst_data_size : Nat)
    (burst_size_selection : Nat) (spi : spi_outcome) : burst_out :=
  let msg_size := burst_size_bytes burst_size_selection
  let bds := if burst_data_size > msg_size - ADIS_CHECKSUM_SIZE then
      msg_size - ADIS_CHECKSUM_SIZE
    else burst_data_size
  if spi.ret ≠ 0 then ⟨Except.error spi.ret, d, []⟩
  else
    let buffer := spi.rx
    if adis_validate_checksum (buffer.drop ADIS_READ_BURST_DATA_CMD_SIZE) msg_size then
      let d1 := { d with diag_flags := { d.diag_flags with checksum_err := false } }
      let data := (buffer.drop ADIS_READ_BURST_DATA_CMD_SIZE).take bds
      let d2 := adis_update_diag_flags d1 (byteAt buffer ADIS_READ_BURST_DATA_CMD_SIZE)
      ⟨Except.ok (), d2, data⟩
    else
      ⟨Except.error (-EINVAL),
        { d with diag_flags := { d.diag_flags with checksum_err := true } }, []⟩

/-- Embedding of `adis_read_sync_mode`. -/
def adis_read_sync_mode (d : adis_dev) (spi : spi_outcome) : field_read_u32_out :=
  adis_read_field_u32 d d.info.field_map.sync_mode spi

/-- Embedding of `adis_write_up_scale`: read back the sync mode; when the
device is in scaled-sync mode, reject the write unless
`clk_freq * up_scale` (computed in `uint32_t` arithmetic) lies in
[1900, 2100]; otherwise write the up-scale field. -/
def adis_write_up_scale (d : adis_dev) (up_scale : Nat)
    (spi1 spiR spiW : spi_outcome) : reg_write_out :=
  let r := adis_read_sync_mode d spi1
  match r.res with
  | Except.error e => ⟨Except.error e, r.dev, r.msgs⟩
  | Except.ok sync_mode =>
      if sync_mode = ADIS_SYNC_SCALED ∧
          (u32 (d.clk_freq * up_scale) > 2100 ∨ u32 (d.clk_freq * up_scale) < 1900) then
        ⟨Except.error (-EINVAL), r.dev, r.msgs⟩
      else
        let w := adis_write_field_u32 r.dev d.info.field_map.up_scale up_scale spiR spiW
        ⟨w.res, w.dev, r.msgs ++ w.msgs⟩

/-- Result of the accessor wrappers that can also perform a settle delay. -/
structure accessor_out where
  res : Except Int Unit
  dev : adis_dev
  msgs : List spi_msg
  delays_ms : List Nat

/-- Embedding of `adis_write_sens_bw`: write the field; only on success
perform the sensor-bandwidth update settle delay. -/
def adis_write_sens_bw (d : adis_dev) (sens_bw : Nat) (spiR spiW : spi_outcome) :
    accessor_out :=
  let w := adis_write_field_u32 d d.info.field_map.sens_bw sens_bw spiR spiW
  match w.res with
  | Except.error e => ⟨Except.error e, w.dev, w.msgs, []⟩
  | Except.ok _ => ⟨Except.ok (), w.dev, w.msgs, [d.info.timeouts.sens_bw_update_ms]⟩

/-- C conversion from a signed 32-bit value to `uint32_t` (reduction
mod 2^32). -/
def u32_of_i32 (v : Int) : Nat := (v % 4294967296).toNat

/-- Embedding of `adis_write_xg_bias`: the `int32_t` argument is passed to
`adis_write_field_u32`, converting it to `uint32_t`. -/
def adis_write_xg_bias (d : adis_dev) (xg_bias : Int) (spiR spiW : spi_outcome) :
    reg_write_out :=
  adis_write_field_u32 d d.info.field_map.xg_bias (u32_of_i32 xg_bias) spiR spiW

/-- A concrete chip field map used to instantiate witnesses: plausible
per-variant data (flag bit positions, field descriptors), all in page 0. -/
def sample_map : adis_data_field_map_def where
  diag_stat := ⟨2, 2, 65535⟩
  diag_data_path_overrun_mask := 2
  diag_spi_comm_err_mask := 8
  diag_standby_mode_mask := 4
  diag_clk_err_mask := 128
  diag_fls_mem_update_failure_mask := 16
  diag_mem_failure_mask := 64
  diag_snsr_failure_mask := 32
  diag_gyro1_failure_mask := 256
  diag_gyro2_failure_mask := 512
  diag_accl_failure_mask := 1024
  sync_mode := ⟨96, 2, 12⟩
  up_scale := ⟨98, 2, 65535⟩
  xg_bias := ⟨64, 2, 65535⟩
  sens_bw := ⟨102, 2, 16⟩

/-- A concrete chip descriptor for witnesses. -/
def sample_info : adis_chip_info where
  field_map := sample_map
  timeouts := ⟨250⟩

/-- A concrete diagnostic snapshot with some flags already set, so that
preservation statements are not vacuous. -/
def sample_flags : adis_diag_flags :=
  ⟨false, false, false, false, false, false, false, true, false, false, false, true⟩

/-- A concrete freshly-initialized device handle: page cache at the `-1`
sentinel, external clock 2000 Hz. -/
def sample_dev : adis_dev where
  current_page := -1
  clk_freq := 2000
  diag_flags := sample_flags
  info := sample_info

/-- The sample device with a clock frequency that makes
`clk_freq * up_scale` overflow `uint32_t` for `up_scale = 2`. -/
def c8_dev : adis_dev := { sample_dev with clk_freq := 2147484648 }

/-- The burst frame used for the C1 divergence: a valid 16-bit burst frame
(two exchanged command bytes, then the 20-byte payload) whose embedded
diagnostic word is `0x0002` (bytes `00 02`), with matching trailer. -/
def c1_frame : List Nat :=
  [0, 0] ++ ([0, 2] ++ List.replicate 16 0 ++ [0, 2])

/-- A corrupted 16-bit burst frame: all-zero payload with nonzero trailer,
so checksum validation fails. -/
def c3_frame : List Nat :=
  [0, 0] ++ (List.replicate 18 0 ++ [0, 1])

/-!  Theorems. -/

theorem byteAt_lt (l : List Nat) (i : Nat) : byteAt l i < 256 :=
  Nat.mod_lt _ (by norm_num)

theorem be16At_lt (l : List Nat) (i : Nat) : be16At l i < 65536 := by
  have h1 := byteAt_lt l i
  have h2 := byteAt_lt l (i + 1)
  unfold be16At
  omega

theorem usub16_lt (a b : Nat) : usub16 a b < 65536 :=
  Nat.mod_lt _ (by norm_num)

theorem checksum_fold_succ (buffer : List Nat) (k c : Nat) :
    checksum_fold buffer (k + 1) c =
      usub16 (checksum_fold buffer k c) (byteAt buffer k) := by
  unfold checksum_fold
  rw [List.range_succ, List.foldl_append]
  rfl

theorem sum_bytes_succ (buffer : List Nat) (k : Nat) :
    sum_bytes buffer (k + 1) = sum_bytes buffer k + byteAt buffer k := by
  unfold sum_bytes
  rw [List.range_succ, List.map_append, List.sum_append]
  simp

theorem checksum_fold_lt (buffer : List Nat) (k c : Nat) (hc : c < 65536) :
    checksum_fold buffer k c < 65536 := by
  cases k with
  | zero => simpa [checksum_fold]
  | succ k =>
      rw [checksum_fold_succ]
      exact usub16_lt _ _

theorem usub16_add_cancel (a b : Nat) (hb : b < 65536) :
    Nat.ModEq 65536 (usub16 a b + b) a := by
  unfold Nat.ModEq usub16
  omega

theorem checksum_fold_modeq (buffer : List Nat) (k c : Nat) :
    Nat.ModEq 65536 (checksum_fold buffer k c + sum_bytes buffer k) c := by
  induction k with
  | zero => simpa [checksum_fold, sum_bytes] using Nat.ModEq.refl c
  | succ k ih =>
      rw [checksum_fold_succ, sum_bytes_succ]
      have hb : byteAt buffer k < 65536 :=
        lt_trans (byteAt_lt _ _) (by norm_num)
      have h1 := usub16_add_cancel (checksum_fold buffer k c) (byteAt buffer k) hb
      have h2 : usub16 (checksum_fold buffer k c) (byteAt buffer k) +
          (sum_bytes buffer k + byteAt buffer k) =
          usub16 (checksum_fold buffer k c) (byteAt buffer k) + byteAt buffer k +
            sum_bytes buffer k := by omega
      rw [h2]
      exact (Nat.ModEq.add_right (sum_bytes buffer k) h1).trans ih

theorem validate_checksum_iff (buffer : List Nat) (n : Nat) :
    adis_validate_checksum buffer n = true ↔
      (be16At buffer (n - 2)) % 65536 = (sum_bytes buffer (n - 2)) % 65536 := by
  unfold adis_validate_checksum ADIS_CHECKSUM_SIZE
  rw [decide_eq_true_iff]
  constructor
  · intro h0
    have hm := checksum_fold_modeq buffer (n - 2) (be16At buffer (n - 2))
    rw [h0] at hm
    unfold Nat.ModEq at hm
    omega
  · intro h
    have hm := checksum_fold_modeq buffer (n - 2) (be16At buffer (n - 2))
    have hlt := checksum_fold_lt buffer (n - 2) _ (be16At_lt buffer (n - 2))
    unfold Nat.ModEq at hm
    omega

/-- C4: for every buffer of size `n ≥ 2`, `adis_validate_checksum` accepts
it iff the big-endian 16-bit trailer minus the sum of the first `n - 2`
payload bytes, computed mod 2^16, is zero; payload `[0x01, 0x02, 0x03]`
with trailer `0x0006` is accepted, and flipping any single bit of the
trailer causes rejection. -/
theorem C4_checksum (buffer : List Nat) (n : Nat) (h : 2 ≤ n) :
    (adis_validate_checksum buffer n = true ↔
      ((be16At buffer (n - 2) : Int) - (sum_bytes buffer (n - 2) : Int)) % 65536 = 0) ∧
    adis_validate_checksum [1, 2, 3, 0, 6] 5 = true ∧
    (∀ k, k < 16 →
      adis_validate_checksum
        [1, 2, 3, (6 ^^^ (1 <<< k)) / 256, (6 ^^^ (1 <<< k)) % 256] 5 = false) := by
  refine ⟨?_, by decide, by decide⟩
  have hv := validate_checksum_iff buffer n
  constructor
  · intro hh
    have := hv.mp hh
    omega
  · intro hh
    apply hv.mpr
    omega

/-- Witness for C4 at the concrete frame `[1, 2, 3, 0, 6]` of size 5. -/
theorem C4_checksum_witness :
    2 ≤ 5 ∧
    ((adis_validate_checksum [1, 2, 3, 0, 6] 5 = true ↔
      ((be16At [1, 2, 3, 0, 6] (5 - 2) : Int) - (sum_bytes [1, 2, 3, 0, 6] (5 - 2) : Int)) % 65536 = 0) ∧
    adis_validate_checksum [1, 2, 3, 0, 6] 5 = true ∧
    (∀ k, k < 16 →
      adis_validate_checksum
        [1, 2, 3, (6 ^^^ (1 <<< k)) / 256, (6 ^^^ (1 <<< k)) % 256] 5 = false)) :=
  ⟨by norm_num, C4_checksum [1, 2, 3, 0, 6] 5 (by norm_num)⟩

theorem adis_read_reg_dev (d : adis_dev) (reg size : Nat) (spi : spi_outcome) :
    (adis_read_reg d reg size spi).dev =
      if spi.ret = 0 ∧ (size = 4 ∨ size = 2) then
        { d with current_page := ((reg / ADIS_PAGE_SIZE : Nat) : Int) }
      else d := by
  unfold adis_read_reg
  by_cases h4 : size = 4
  · by_cases hr : spi.ret = 0 <;> simp [h4, hr]
  · by_cases h2 : size = 2
    · by_cases hr : spi.ret = 0 <;> simp [h4, h2, hr]
    · simp [h4, h2]

theorem adis_write_reg_dev (d : adis_dev) (reg val size : Nat) (spi : spi_outcome) :
    (adis_write_reg d reg val size spi).dev =
      if spi.ret = 0 ∧ (size = 4 ∨ size = 2 ∨ size = 1) then
        { d with current_page := ((reg / ADIS_PAGE_SIZE : Nat) : Int) }
      else d := by
  unfold adis_write_reg
  by_cases hs : size = 4 ∨ size = 2 ∨ size = 1
  · by_cases hr : spi.ret = 0 <;> simp [hs, hr]
  · simp [hs]

/-- C2: for every register read or write, a failed SPI transfer (and also a
rejected size) leaves the cached current page at its pre-call value, and a
successful transfer sets it to the target page `reg / ADIS_PAGE_SIZE`. -/
theorem C2_page_cache (d : adis_dev) (reg val size : Nat) (spi : spi_outcome) :
    (adis_read_reg d reg size spi).dev.current_page =
      (if spi.ret = 0 ∧ (size = 4 ∨ size = 2) then ((reg / ADIS_PAGE_SIZE : Nat) : Int)
       else d.current_page) ∧
    (adis_write_reg d reg val size spi).dev.current_page =
      (if spi.ret = 0 ∧ (size = 4 ∨ size = 2 ∨ size = 1) then ((reg / ADIS_PAGE_SIZE : Nat) : Int)
       else d.current_page) := by
  constructor
  · rw [adis_read_reg_dev]
    split <;> rfl
  · rw [adis_write_reg_dev]
    split <;> rfl

theorem adis_read_reg_msgs_split (d : adis_dev) (reg size : Nat) (spi : spi_outcome)
    (hs : size = 4 ∨ size = 2) :
    (adis_read_reg d reg size spi).msgs =
      (if d.current_page ≠ ((reg / ADIS_PAGE_SIZE : Nat) : Int) then
        [⟨[ADIS_WRITE_REG ADIS_REG_PAGE_ID, reg / ADIS_PAGE_SIZE], false⟩]
      else []) ++
      (adis_read_reg { d with current_page := ((reg / ADIS_PAGE_SIZE : Nat) : Int) }
        reg size spi).msgs := by
  rcases hs with h | h <;> subst h <;> unfold adis_read_reg <;>
    by_cases hr : spi.ret ≠ 0 <;> simp [hr]

theorem adis_write_reg_msgs_split (d : adis_dev) (reg val size : Nat) (spi : spi_outcome)
    (hs : size = 4 ∨ size = 2 ∨ size = 1) :
    (adis_write_reg d reg val size spi).msgs =
      (if d.current_page ≠ ((reg / ADIS_PAGE_SIZE : Nat) : Int) then
        [⟨[ADIS_WRITE_REG ADIS_REG_PAGE_ID, reg / ADIS_PAGE_SIZE], false⟩]
      else []) ++
      (adis_write_reg { d with current_page := ((reg / ADIS_PAGE_SIZE : Nat) : Int) }
        reg val size spi).msgs := by
  unfold adis_write_reg
  by_cases hr : spi.ret ≠ 0 <;> simp [hs, hr]

theorem is_page_select_read_data (r : Nat) (b : Bool) :
    is_page_select ⟨[ADIS_READ_REG r, 0], b⟩ = false := by
  have h : r &&& 127 ≤ 127 := Nat.and_le_right
  simp [is_page_select, ADIS_READ_REG]
  omega

theorem is_page_select_rx_only (b : Bool) : is_page_select ⟨[], b⟩ = false := by
  simp [is_page_select]

theorem is_page_select_page_msg (page : Nat) (b : Bool) :
    is_page_select ⟨[ADIS_WRITE_REG ADIS_REG_PAGE_ID, page], b⟩ = true := by
  simp [is_page_select, ADIS_WRITE_REG, ADIS_REG_PAGE_ID]

theorem adis_read_reg_countP (d : adis_dev) (reg size : Nat) (spi : spi_outcome)
    (hs : size = 4 ∨ size = 2) :
    (adis_read_reg d reg size spi).msgs.countP is_page_select =
      if d.current_page = ((reg / ADIS_PAGE_SIZE : Nat) : Int) then 0 else 1 := by
  rcases hs with h | h <;> subst h <;> unfold adis_read_reg <;>
    generalize reg / ADIS_PAGE_SIZE = p <;>
    by_cases hp : d.current_page = (p : Int) <;>
    by_cases hr : spi.ret ≠ 0 <;>
    simp [hp, hr, List.countP_cons, List.countP_append, List.countP_nil,
      is_page_select_read_data, is_page_select_rx_only, is_page_select_page_msg]

/-- C5: a page-select transfer (writing `reg / ADIS_PAGE_SIZE` to register
0) is prepended to a read's or write's transaction iff the cached current
page differs from the target page; consequently two consecutive successful
reads starting from a cache that misses the first target issue exactly one
page-select transfer in total when the two addresses share a page, and one
each (two in total) when they do not. -/
theorem C5_page_select_elision (d : adis_dev)
    (rr rsize wr wval wsize reg1 size1 reg2 size2 : Nat)
    (spir spiw spi1 spi2 : spi_outcome)
    (hrr : rsize = 4 ∨ rsize = 2) (hww : wsize = 4 ∨ wsize = 2 ∨ wsize = 1)
    (h1 : size1 = 4 ∨ size1 = 2) (h2 : size2 = 4 ∨ size2 = 2)
    (hret1 : spi1.ret = 0) (hret2 : spi2.ret = 0)
    (hd : d.current_page ≠ ((reg1 / ADIS_PAGE_SIZE : Nat) : Int)) :
    ((adis_read_reg d rr rsize spir).msgs =
      (if d.current_page ≠ ((rr / ADIS_PAGE_SIZE : Nat) : Int) then
        [⟨[ADIS_WRITE_REG ADIS_REG_PAGE_ID, rr / ADIS_PAGE_SIZE], false⟩] else []) ++
      (adis_read_reg { d with current_page := ((rr / ADIS_PAGE_SIZE : Nat) : Int) }
        rr rsize spir).msgs) ∧
    ((adis_write_reg d wr wval wsize spiw).msgs =
      (if d.current_page ≠ ((wr / ADIS_PAGE_SIZE : Nat) : Int) then
        [⟨[ADIS_WRITE_REG ADIS_REG_PAGE_ID, wr / ADIS_PAGE_SIZE], false⟩] else []) ++
      (adis_write_reg { d with current_page := ((wr / ADIS_PAGE_SIZE : Nat) : Int) }
        wr wval wsize spiw).msgs) ∧
    ((adis_read_reg d reg1 size1 spi1).msgs.countP is_page_select +
      (adis_read_reg (adis_read_reg d reg1 size1 spi1).dev reg2 size2 spi2).msgs.countP
        is_page_select =
      if reg1 / ADIS_PAGE_SIZE = reg2 / ADIS_PAGE_SIZE then 1 else 2) := by
  refine ⟨adis_read_reg_msgs_split d rr rsize spir hrr,
    adis_write_reg_msgs_split d wr wval wsize spiw hww, ?_⟩
  have hdev : (adis_read_reg d reg1 size1 spi1).dev =
      { d with current_page := ((reg1 / ADIS_PAGE_SIZE : Nat) : Int) } := by
    rw [adis_read_reg_dev, if_pos ⟨hret1, h1⟩]
  rw [adis_read_reg_countP d reg1 size1 spi1 h1, hdev,
    adis_read_reg_countP _ reg2 size2 spi2 h2]
  set p1 := reg1 / ADIS_PAGE_SIZE with hp1
  set p2 := reg2 / ADIS_PAGE_SIZE with hp2
  have hc2 : (({ d with current_page := ((p1 : Nat) : Int) } : adis_dev).current_page =
      ((p2 : Nat) : Int)) ↔ p1 = p2 := by
    simp
  by_cases hpp : p1 = p2
  · rw [if_pos hpp, if_neg hd, if_pos (hc2.mpr hpp)]
  · rw [if_neg hpp, if_neg hd, if_neg (fun hc => hpp (hc2.mp hc))]

/-- Witness for C5: a fresh device (page cache at the sentinel) reads
registers 10 and 20 (both page 0); the hypotheses and the counting
conclusion are discharged at this concrete input. -/
theorem C5_page_select_elision_witness :
    sample_dev.current_page ≠ ((10 / ADIS_PAGE_SIZE : Nat) : Int) ∧
    ((adis_read_reg sample_dev 10 2 ⟨0, []⟩).msgs.countP is_page_select +
      (adis_read_reg (adis_read_reg sample_dev 10 2 ⟨0, []⟩).dev 20 2 ⟨0, []⟩).msgs.countP
        is_page_select =
      if 10 / ADIS_PAGE_SIZE = 20 / ADIS_PAGE_SIZE then 1 else 2) :=
  ⟨by decide,
    (C5_page_select_elision sample_dev 10 2 10 7 2 10 2 20 2
      ⟨0, []⟩ ⟨0, []⟩ ⟨0, []⟩ ⟨0, []⟩
      (Or.inr rfl) (Or.inr (Or.inl rfl)) (Or.inr rfl) (Or.inr rfl)
      rfl rfl (by decide)).2.2⟩

/-- C3: for every burst read whose checksum validation fails,
`adis_read_burst_data` sets the checksum-error flag, returns `-EINVAL`,
leaves every other diagnostic flag at its pre-call value, and copies
nothing into the caller's buffer. -/
theorem C3_burst_checksum_fail (d : adis_dev) (bds sel : Nat) (spi : spi_outcome)
    (hspi : spi.ret = 0)
    (hcheck : adis_validate_checksum (spi.rx.drop ADIS_READ_BURST_DATA_CMD_SIZE)
      (burst_size_bytes sel) = false) :
    (adis_read_burst_data d bds sel spi).res = Except.error (-EINVAL) ∧
    (adis_read_burst_data d bds sel spi).dev.diag_flags =
      { d.diag_flags with checksum_err := true } ∧
    (adis_read_burst_data d bds sel spi).data = [] := by
  unfold adis_read_burst_data
  simp [hspi, hcheck]

/-- Witness for C3: a 16-bit burst frame with an all-zero payload and a
trailer of 1 fails validation; only the checksum-error flag changes and no
data is returned (the sample snapshot has other flags set, so preservation
is not vacuous). -/
theorem C3_burst_checksum_fail_witness :
    (⟨0, c3_frame⟩ : spi_outcome).ret = 0 ∧
    adis_validate_checksum ((⟨0, c3_frame⟩ : spi_outcome).rx.drop
      ADIS_READ_BURST_DATA_CMD_SIZE) (burst_size_bytes 0) = false ∧
    ((adis_read_burst_data sample_dev 18 0 ⟨0, c3_frame⟩).res = Except.error (-EINVAL) ∧
     (adis_read_burst_data sample_dev 18 0 ⟨0, c3_frame⟩).dev.diag_flags =
       { sample_dev.diag_flags with checksum_err := true } ∧
     (adis_read_burst_data sample_dev 18 0 ⟨0, c3_frame⟩).data = []) :=
  ⟨rfl, by decide, C3_burst_checksum_fail sample_dev 18 0 ⟨0, c3_frame⟩ rfl (by decide)⟩

/-- C1 (divergence evidence): a valid 16-bit burst frame embeds the
diagnostic word `0x0002` in its first two payload bytes. The burst read
succeeds but leaves `data_path_overrun` clear, because the code passes only
the single byte `buffer[2]` (here `0x00`) to `adis_update_diag_flags`,
whereas decoding the 16-bit word `0x0002` — as a direct status-register
read of the same word does — sets the flag. -/
theorem C1_burst_diag_divergence :
    (adis_read_burst_data sample_dev 18 0 ⟨0, c1_frame⟩).res = Except.ok () ∧
    (adis_read_burst_data sample_dev 18 0 ⟨0, c1_frame⟩).dev.diag_flags.data_path_overrun
      = false ∧
    be16At (c1_frame.drop ADIS_READ_BURST_DATA_CMD_SIZE) 0 = 2 ∧
    (adis_update_diag_flags sample_dev
      (be16At (c1_frame.drop ADIS_READ_BURST_DATA_CMD_SIZE) 0)).diag_flags.data_path_overrun
      = true ∧
    (adis_read_diag_stat sample_dev ⟨0, [0, 0, 0, 2]⟩).dev.diag_flags.data_path_overrun
      = true :=
  ⟨rfl, by decide, by decide, by decide, by decide⟩

/-- C6: signed field extraction right-justifies the masked bits and
sign-extends from the highest set bit of the mask: for a 2-byte field with
mask `0x0FFF`, raw register value `0x0FFF` decodes to -1, `0x0800` to
-2048, and `0x07FF` to 2047. -/
theorem C6_sign_extend :
    (adis_read_field_s32 sample_dev ⟨80, 2, 4095⟩ ⟨0, [0, 0, 15, 255]⟩).res = Except.ok (-1) ∧
    (adis_read_field_s32 sample_dev ⟨80, 2, 4095⟩ ⟨0, [0, 0, 8, 0]⟩).res = Except.ok (-2048) ∧
    (adis_read_field_s32 sample_dev ⟨80, 2, 4095⟩ ⟨0, [0, 0, 7, 255]⟩).res = Except.ok 2047 :=
  ⟨rfl, rfl, rfl⟩

/-- C7: a field write whose value exceeds the right-justified mask is
rejected with `-EINVAL` before any transfer: no message reaches the bus,
the device state is untouched, and (shown on the `sens_bw` accessor, which
delays after successful writes) no settle delay is performed. -/
theorem C7_write_field_range (d : adis_dev) (field : adis_field) (v w : Nat)
    (spiR spiW : spi_outcome)
    (h : v > no_os_field_get field.field_mask field.field_mask)
    (h2 : w > no_os_field_get d.info.field_map.sens_bw.field_mask
      d.info.field_map.sens_bw.field_mask) :
    (adis_write_field_u32 d field v spiR spiW).res = Except.error (-EINVAL) ∧
    (adis_write_field_u32 d field v spiR spiW).msgs = [] ∧
    (adis_write_field_u32 d field v spiR spiW).dev = d ∧
    (adis_write_sens_bw d w spiR spiW).res = Except.error (-EINVAL) ∧
    (adis_write_sens_bw d w spiR spiW).msgs = [] ∧
    (adis_write_sens_bw d w spiR spiW).delays_ms = [] := by
  have e1 : adis_write_field_u32 d field v spiR spiW = ⟨Except.error (-EINVAL), d, []⟩ := by
    unfold adis_write_field_u32
    rw [if_pos h]
  have e2 : adis_write_field_u32 d d.info.field_map.sens_bw w spiR spiW =
      ⟨Except.error (-EINVAL), d, []⟩ := by
    unfold adis_write_field_u32
    rw [if_pos h2]
  unfold adis_write_sens_bw
  rw [e1, e2]
  exact ⟨rfl, rfl, rfl, rfl, rfl, rfl⟩

/-- Witness for C7: value 256 does not fit an 8-bit field, and value 2 does
not fit the 1-bit `sens_bw` field of the sample chip. -/
theorem C7_write_field_range_witness :
    256 > no_os_field_get (⟨0, 2, 255⟩ : adis_field).field_mask
      (⟨0, 2, 255⟩ : adis_field).field_mask ∧
    2 > no_os_field_get sample_dev.info.field_map.sens_bw.field_mask
      sample_dev.info.field_map.sens_bw.field_mask ∧
    ((adis_write_field_u32 sample_dev ⟨0, 2, 255⟩ 256 ⟨0, []⟩ ⟨0, []⟩).res =
      Except.error (-EINVAL) ∧
     (adis_write_field_u32 sample_dev ⟨0, 2, 255⟩ 256 ⟨0, []⟩ ⟨0, []⟩).msgs = [] ∧
     (adis_write_field_u32 sample_dev ⟨0, 2, 255⟩ 256 ⟨0, []⟩ ⟨0, []⟩).dev = sample_dev ∧
     (adis_write_sens_bw sample_dev 2 ⟨0, []⟩ ⟨0, []⟩).res = Except.error (-EINVAL) ∧
     (adis_write_sens_bw sample_dev 2 ⟨0, []⟩ ⟨0, []⟩).msgs = [] ∧
     (adis_write_sens_bw sample_dev 2 ⟨0, []⟩ ⟨0, []⟩).delays_ms = []) :=
  ⟨by decide, by decide,
    C7_write_field_range sample_dev ⟨0, 2, 255⟩ 256 2 ⟨0, []⟩ ⟨0, []⟩
      (by decide) (by decide)⟩

/-- C9: after a successful read returning `old`, `adis_update_bits_base`
writes back exactly `(old & ~mask) | no_os_field_prep(mask, val)`, and that
written value agrees with `old` on every bit outside `mask`. -/
theorem C9_update_bits_masked (d : adis_dev) (reg mask val size : Nat)
    (spiR spiW : spi_outcome) (old : Nat)
    (hmask : mask < 4294967296)
    (h : (adis_read_reg d reg size spiR).res = Except.ok old) :
    adis_update_bits_base d reg mask val size spiR spiW =
      ⟨(adis_write_reg (adis_read_reg d reg size spiR).dev reg
          ((old &&& (UINT32_MAX ^^^ mask)) ||| no_os_field_prep mask val) size spiW).res,
        (adis_write_reg (adis_read_reg d reg size spiR).dev reg
          ((old &&& (UINT32_MAX ^^^ mask)) ||| no_os_field_prep mask val) size spiW).dev,
        (adis_read_reg d reg size spiR).msgs ++
          (adis_write_reg (adis_read_reg d reg size spiR).dev reg
            ((old &&& (UINT32_MAX ^^^ mask)) ||| no_os_field_prep mask val) size spiW).msgs⟩ ∧
    (((old &&& (UINT32_MAX ^^^ mask)) ||| no_os_field_prep mask val) &&&
        (UINT32_MAX ^^^ mask))
      = old &&& (UINT32_MAX ^^^ mask) := by
  constructor
  · simp only [adis_update_bits_base, h]
  · have hmax : UINT32_MAX = 2 ^ 32 - 1 := by norm_num [UINT32_MAX]
    apply Nat.eq_of_testBit_eq
    intro i
    by_cases hm : mask.testBit i
    · have hi : i < 32 := by
        by_contra hge
        push_neg at hge
        have h1 : 2 ^ i ≤ mask := Nat.testBit_implies_ge hm
        have h2 : (2 : Nat) ^ 32 ≤ 2 ^ i := Nat.pow_le_pow_right (by norm_num) hge
        omega
      have ht : Nat.testBit 4294967295 i = true := by
        rw [show (4294967295 : Nat) = 2 ^ 32 - 1 by norm_num, Nat.testBit_two_pow_sub_one]
        simpa using hi
      simp [UINT32_MAX, no_os_field_prep, Nat.testBit_land, Nat.testBit_lor,
        Nat.testBit_xor, hm, ht]
    · simp [hmax, no_os_field_prep, Nat.testBit_land, Nat.testBit_lor, Nat.testBit_xor,
        Nat.testBit_two_pow_sub_one, hm, Bool.and_assoc, Bool.and_self]

/-- Witness for C9 at register 10, mask `0x0FF0`, value 5, old register
value `0xABCD`. -/
theorem C9_update_bits_masked_witness :
    (4080 : Nat) < 4294967296 ∧
    (adis_read_reg sample_dev 10 2 ⟨0, [0, 0, 171, 205]⟩).res = Except.ok 43981 ∧
    (((43981 &&& (UINT32_MAX ^^^ 4080)) ||| no_os_field_prep 4080 5) &&&
        (UINT32_MAX ^^^ 4080))
      = 43981 &&& (UINT32_MAX ^^^ 4080) :=
  ⟨by norm_num, rfl,
    (C9_update_bits_masked sample_dev 10 4080 5 2 ⟨0, [0, 0, 171, 205]⟩ ⟨0, []⟩ 43981
      (by norm_num) rfl).2⟩

/-- C10: a negative bias value routed through `adis_write_xg_bias` is
converted to `uint32_t`, lands above the capacity of any field mask
narrower than 32 bits (right-justified capacity below 2^31), and is
rejected with `-EINVAL` before any bus transfer. -/
theorem C10_negative_bias (d : adis_dev) (v : Int) (spiR spiW : spi_outcome)
    (hneg : v < 0) (hrange : -2147483648 ≤ v)
    (hmask : no_os_field_get d.info.field_map.xg_bias.field_mask
      d.info.field_map.xg_bias.field_mask < 2147483648) :
    (adis_write_xg_bias d v spiR spiW).res = Except.error (-EINVAL) ∧
    (adis_write_xg_bias d v spiR spiW).msgs = [] ∧
    (adis_write_xg_bias d v spiR spiW).dev = d := by
  have hbig : 2147483648 ≤ u32_of_i32 v := by
    unfold u32_of_i32
    omega
  have hgt : u32_of_i32 v > no_os_field_get d.info.field_map.xg_bias.field_mask
      d.info.field_map.xg_bias.field_mask := by omega
  have e : adis_write_xg_bias d v spiR spiW = ⟨Except.error (-EINVAL), d, []⟩ := by
    unfold adis_write_xg_bias adis_write_field_u32
    rw [if_pos hgt]
  rw [e]
  exact ⟨rfl, rfl, rfl⟩

/-- Witness for C10: writing bias -1 on the sample chip (16-bit bias
field) is rejected without any bus message. -/
theorem C10_negative_bias_witness :
    (-1 : Int) < 0 ∧ (-2147483648 : Int) ≤ -1 ∧
    no_os_field_get sample_dev.info.field_map.xg_bias.field_mask
      sample_dev.info.field_map.xg_bias.field_mask < 2147483648 ∧
    ((adis_write_xg_bias sample_dev (-1) ⟨0, []⟩ ⟨0, []⟩).res = Except.error (-EINVAL) ∧
     (adis_write_xg_bias sample_dev (-1) ⟨0, []⟩ ⟨0, []⟩).msgs = [] ∧
     (adis_write_xg_bias sample_dev (-1) ⟨0, []⟩ ⟨0, []⟩).dev = sample_dev) :=
  ⟨by norm_num, by norm_num, by decide,
    C10_negative_bias sample_dev (-1) ⟨0, []⟩ ⟨0, []⟩ (by norm_num) (by norm_num) (by decide)⟩

/-- C8 counterexample: with cached clock frequency 2147484648 Hz and
up-scale 2, the mathematical product 4294969296 lies outside [1900, 2100],
yet the `uint32_t` product wraps to 2000, so `adis_write_up_scale` does
not reject: it succeeds and puts a write of the up-scale register
(address 98, first tx byte `ADIS_WRITE_REG 98`) on the bus. -/
theorem C8_overflow_counterexample :
    ¬ (1900 ≤ c8_dev.clk_freq * 2 ∧ c8_dev.clk_freq * 2 ≤ 2100) ∧
    (adis_read_sync_mode c8_dev ⟨0, [0, 0, 0, 8]⟩).res = Except.ok ADIS_SYNC_SCALED ∧
    (adis_write_up_scale c8_dev 2 ⟨0, [0, 0, 0, 8]⟩ ⟨0, [0, 0, 0, 0]⟩ ⟨0, []⟩).res =
      Except.ok () ∧
    (adis_write_up_scale c8_dev 2 ⟨0, [0, 0, 0, 8]⟩ ⟨0, [0, 0, 0, 0]⟩ ⟨0, []⟩).msgs.countP
      (fun m => decide (m.tx.head? = some (ADIS_WRITE_REG 98))) = 1 :=
  ⟨by decide, rfl, rfl, by decide⟩

/-- C8 (amended): whenever the sync mode reads back as scaled-sync and
`clk_freq * up_scale`, computed in `uint32_t` (mod 2^32) arithmetic, lies
outside [1900, 2100], the up-scale write is rejected with `-EINVAL` and no
message beyond the sync-mode read reaches the bus; with clock 2000 Hz,
up-scale 1 is accepted and up-scale 2 is rejected. -/
theorem C8_up_scale_amended (d : adis_dev) (up_scale : Nat)
    (spi1 spiR spiW : spi_outcome)
    (hread : (adis_read_sync_mode d spi1).res = Except.ok ADIS_SYNC_SCALED)
    (hband : u32 (d.clk_freq * up_scale) > 2100 ∨ u32 (d.clk_freq * up_scale) < 1900) :
    (adis_write_up_scale d up_scale spi1 spiR spiW).res = Except.error (-EINVAL) ∧
    (adis_write_up_scale d up_scale spi1 spiR spiW).msgs =
      (adis_read_sync_mode d spi1).msgs ∧
    (adis_write_up_scale sample_dev 1 ⟨0, [0, 0, 0, 8]⟩ ⟨0, [0, 0, 0, 0]⟩ ⟨0, []⟩).res =
      Except.ok () ∧
    (adis_write_up_scale sample_dev 2 ⟨0, [0, 0, 0, 8]⟩ ⟨0, [0, 0, 0, 0]⟩ ⟨0, []⟩).res =
      Except.error (-EINVAL) := by
  have e : adis_write_up_scale d up_scale spi1 spiR spiW =
      ⟨Except.error (-EINVAL), (adis_read_sync_mode d spi1).dev,
        (adis_read_sync_mode d spi1).msgs⟩ := by
    unfold adis_write_up_scale
    simp only [hread]
    rw [if_pos ⟨trivial, hband⟩]
  rw [e]
  exact ⟨rfl, rfl, rfl, rfl⟩

/-- Witness for C8 (amended): the sample device (clock 2000 Hz) in
scaled-sync mode rejects up-scale 2, whose mod-2^32 product 4000 exceeds
2100, issuing only the sync-mode read. -/
theorem C8_up_scale_amended_witness :
    (adis_read_sync_mode sample_dev ⟨0, [0, 0, 0, 8]⟩).res = Except.ok ADIS_SYNC_SCALED ∧
    (u32 (sample_dev.clk_freq * 2) > 2100 ∨ u32 (sample_dev.clk_freq * 2) < 1900) ∧
    ((adis_write_up_scale sample_dev 2 ⟨0, [0, 0, 0, 8]⟩ ⟨0, [0, 0, 0, 0]⟩ ⟨0, []⟩).res =
      Except.error (-EINVAL) ∧
     (adis_write_up_scale sample_dev 2 ⟨0, [0, 0, 0, 8]⟩ ⟨0, [0, 0, 0, 0]⟩ ⟨0, []⟩).msgs =
      (adis_read_sync_mode sample_dev ⟨0, [0, 0, 0, 8]⟩).msgs) :=
  ⟨rfl, by decide,
    (C8_up_scale_amended sample_dev 2 ⟨0, [0, 0, 0, 8]⟩ ⟨0, [0, 0, 0, 0]⟩ ⟨0, []⟩
      rfl (by decide)).1,
    (C8_up_scale_amended sample_dev 2 ⟨0, [0, 0, 0, 8]⟩ ⟨0, [0, 0, 0, 0]⟩ ⟨0, []⟩
      rfl (by decide)).2.1⟩

end Adis
